import Mathlib

/-!
Verification of the mastra-chat-agent repository: a shallow embedding of the
suspendable workflow steps (email collection, multiple choice), the escalation
orchestrator, the retrieval-augmentation pipeline and its normalization, the
streaming multiplexer, and the workflow-resume route, together with theorems
settling the behavioral claims about them.

JavaScript strings are modelled as Lean `String`; `undefined`/optional record
fields as `Option`; thrown exceptions as `Except.error`; external effects
(the Mastra run store, the Pinecone backend, the underlying agent stream) as
explicit oracle parameters; effect invocations are recorded in an output list
so that "the backend was not called" is expressible.
-/

namespace MastraChat

/-- Character class of JavaScript `\s` (also the set trimmed by
`String.prototype.trim`): ASCII whitespace, NBSP, the Unicode space
separators, line/paragraph separators and the BOM. -/
def isJsWhitespace (c : Char) : Bool :=
  c = ' ' || c = '\t' || c = '\n' || c = '\r' || c = '\x0b' || c = '\x0c' ||
  c = ' ' || c = ' ' || (' ' ≤ c && c ≤ ' ') ||
  c = ' ' || c = ' ' || c = ' ' || c = ' ' ||
  c = '　' || c = '﻿'

/-- JavaScript `String.prototype.trim` on the character list. -/
def jsTrimList (cs : List Char) : List Char :=
  ((cs.dropWhile isJsWhitespace).reverse.dropWhile isJsWhitespace).reverse

/-- JavaScript `String.prototype.trim`. -/
def jsTrim (s : String) : String :=
  ⟨jsTrimList s.data⟩

/-- JavaScript `a || b` on two possibly-absent strings: `a` wins iff it is
defined and non-empty (truthy). -/
def jsOr (a b : Option String) : Option String :=
  match a with
  | some s => if s = "" then b else some s
  | none => b

/-- JavaScript `chain || defaultValue` where `defaultValue` is a string
literal: the chain's value if truthy, the default otherwise. -/
def jsGetTruthy (a : Option String) (dflt : String) : String :=
  match a with
  | some s => if s = "" then dflt else s
  | none => dflt

/-- Character class `[^\s@]` of the email regex in `requestEmailStep`:
anything but JavaScript whitespace and `@`. -/
def emailClassChar (c : Char) : Bool :=
  !(isJsWhitespace c) && c ≠ '@'

/-- Matcher for the tail `[^\s@]+\.[^\s@]+` of the email regex: every
character in the class and some `.` with at least one character on each
side ( `.` itself belongs to the class). -/
def emailTailOk (cs : List Char) : Bool :=
  cs.all emailClassChar &&
  (List.range cs.length).any fun i =>
    decide (1 ≤ i) && decide (i + 1 < cs.length) && cs.getD i ' ' = '.'

/-- Matcher for the whole email regex `/^[^\s@]+@[^\s@]+\.[^\s@]+$/` of
`requestEmailStep`: some `@` with a non-empty class-only prefix before it
and a matching tail after it. Since the class excludes `@`, quantifying
over the position of the `@` is exhaustive. -/
def emailRegexTest (cs : List Char) : Bool :=
  (List.range cs.length).any fun i =>
    cs.getD i ' ' = '@' &&
    decide (0 < i) && (cs.take i).all emailClassChar &&
    emailTailOk (cs.drop (i + 1))

/-- Test of the email-shape regex on a string, as `emailRegex.test(email)`
in `requestEmailStep`. -/
def emailShapeAccepts (s : String) : Bool :=
  emailRegexTest s.data

/-- Result of one invocation of a workflow step executor: either a
`suspend(payload)` call or a terminal typed output. For the email step the
suspend payload is `{message, reason}` and the output `{email, submitted}`. -/
inductive EmailStepResult where
  | suspended (message : String) (reason : String)
  | completed (email : String) (submitted : Bool)
deriving DecidableEq, Repr

/-- True iff the step invocation suspended. -/
def EmailStepResult.isSuspended : EmailStepResult → Bool
  | .suspended _ _ => true
  | .completed _ _ => false

/-- The `execute` function of `requestEmailStep` (src/src/mastra/index.ts):
destructures `message` with a default, suspends with reason `Email required`
when `resumeData` carries no (or an empty) email, suspends with a corrective
message when the email fails the regex, and otherwise completes with the
trimmed email and `submitted: true`. -/
def requestEmailStepExecute (message : Option String) (resumeEmail : Option String) :
    EmailStepResult :=
  let msg := message.getD "Please provide your email address so we can get back to you."
  match resumeEmail with
  | none => .suspended msg "Email required"
  | some email =>
    if email = "" then
      .suspended msg "Email required"
    else if !emailShapeAccepts email then
      .suspended "Please enter a valid email address." "Invalid email format"
    else
      .completed (jsTrim email) true

/-- Modelled from the spec: the suspend/resume engine of `@mastra/core` is
not part of this repository; per §4.1 a `resume` call on a suspended run
re-invokes the step executor with the original `inputData` plus the supplied
`resumeData`, the run re-suspending or completing according to the step's
result. Resuming the (single-step) email workflow therefore executes
`requestEmailStep` with the stored input message and the resumed email. -/
def resumeEmailRun (message : Option String) (email : String) : EmailStepResult :=
  requestEmailStepExecute message (some email)

/-- One selectable option of the multiple-choice workflow: `{id, label}`. -/
structure ChoiceOption where
  id : String
  label : String
deriving DecidableEq, Repr

/-- Result of one invocation of the multiple-choice step executor: a
`suspend({question, options, reason})` call or the terminal
`{selectedOptionId, selectedOptionLabel, submitted}` output. -/
inductive ChoiceStepResult where
  | suspended (question : String) (options : List ChoiceOption) (reason : String)
  | completed (selectedOptionId : String) (selectedOptionLabel : String) (submitted : Bool)
deriving DecidableEq, Repr

/-- The `execute` function of `multipleChoiceStep` (src/unnamed/part_003):
suspends with reason `User selection required` when `resumeData` carries no
(or an empty, hence falsy) `selectedOptionId`, suspends with reason
`Invalid option selected` when no option has the selected id, and otherwise
completes with the first matching option's id and label. -/
def multipleChoiceStepExecute (question : String) (options : List ChoiceOption)
    (resumeSelected : Option String) : ChoiceStepResult :=
  match resumeSelected with
  | none => .suspended question options "User selection required"
  | some sel =>
    if sel = "" then
      .suspended question options "User selection required"
    else
      match options.find? (fun opt => opt.id == sel) with
      | none => .suspended question options "Invalid option selected"
      | some opt => .completed opt.id opt.label true

/-- Modelled from the spec: as for the email workflow, the `@mastra/core`
engine is not part of this repository; per §4.1 resuming the suspended
(single-step) multiple-choice run re-invokes `multipleChoiceStep` with the
stored question and options plus the resumed `selectedOptionId`. -/
def resumeChoiceRun (question : String) (options : List ChoiceOption) (sel : String) :
    ChoiceStepResult :=
  multipleChoiceStepExecute question options (some sel)

/-- Reason codes accepted by `escalateTool`. -/
inductive EscReason where
  | no_results | low_confidence | user_request | sensitive | emergency
deriving DecidableEq, Repr

/-- Suspend payload of the email-collection step: `{message, reason}`. -/
structure EmailSuspendPayload where
  message : String
  reason : String
deriving DecidableEq, Repr

/-- Terminal output of the email-collection workflow: `{email, submitted}`. -/
structure EmailWfOutput where
  email : String
  submitted : Bool
deriving DecidableEq, Repr

/-- Status of a workflow run result as reported by the run store
(`result.status` in the tools): `success`, `suspended` or anything else. -/
inductive WfRunStatus where
  | success | suspended | failed
deriving DecidableEq, Repr

/-- Shape of the run store's answer to `run.start` for the email workflow:
`{status, suspended?: [stepId], steps: map(stepId -> {suspendPayload?}),
result?}` (§6 Run Store capability). -/
structure EmailStartResult where
  status : WfRunStatus
  suspendedSteps : List String
  steps : List (String × Option EmailSuspendPayload)
  result : Option EmailWfOutput
deriving DecidableEq, Repr

/-- The fixed safety message of the emergency path of `escalateTool`. -/
def emergencyMessage : String :=
  "For medical emergencies, please call 911 immediately. I've also notified our staff to follow up with you."

/-- The no-match wording of `escalateTool`. -/
def noMatchMessage : String :=
  "I don't have information about that in our knowledge base. Let me connect you with someone who can help. Please provide your email address so we can get back to you."

/-- The user-requested wording of `escalateTool`. -/
def userRequestMessage : String :=
  "I'd be happy to connect you with a staff member. Please provide your email address so we can get back to you."

/-- The low-confidence wording of `escalateTool` (its `else` branch). -/
def lowConfidenceMessage : String :=
  "I want to make sure you get the most accurate information. Let me connect you with someone who can help. Please provide your email address so we can get back to you."

/-- Message selection of the non-emergency path of `escalateTool`
(src/src/mastra/tools/multiple-choice.ts): `isNoMatch` is
`reason === 'no_results' || searchResultsCount === 0`, and the message is
the no-match wording when `isNoMatch`, the user-requested wording for
`user_request`, and the low-confidence wording otherwise. -/
def escalationMessageFor (reason : EscReason) (searchResultsCount : Int) : String :=
  if reason = .no_results ∨ searchResultsCount = 0 then noMatchMessage
  else if reason = .user_request then userRequestMessage
  else lowConfidenceMessage

/-- The run-ID fallback generated up front by the tools:
`run_${Date.now()}_${Math.random().toString(36).substring(7)}`, with the
timestamp and the random suffix as parameters. -/
def genRunId (now : Nat) (rand : String) : String :=
  "run_" ++ toString now ++ "_" ++ rand

/-- Run-ID resolution of the tools: the run store's id (`run.id`) when it is
a defined, non-blank string, else the generated fallback. -/
def resolveRunId (storeId : Option String) (generated : String) : String :=
  match storeId with
  | some s => if jsTrim s ≠ "" then s else generated
  | none => generated

/-- Lookup of `result.steps[stepId]?.suspendPayload`. -/
def stepSuspendPayload {α : Type} (steps : List (String × Option α))
    (stepId : String) : Option α :=
  match steps.lookup stepId with
  | some p => p
  | none => none

/-- Output schema of `escalateTool`: every field optional except
`escalated`, `requiresEmail`, `reason` and `question`. -/
structure EscalateOutput where
  workflowRunId : Option String
  suspended : Option Bool
  suspendPayload : Option EmailSuspendPayload
  escalated : Bool
  message : Option String
  requiresEmail : Bool
  escalationId : Option String
  reason : EscReason
  question : String
deriving DecidableEq, Repr

/-- The graceful-degradation return of `escalateTool`'s catch block: the
composed message without a run handle, still requiring an email. -/
def escalateFallbackOutput (msg : String) (reason : EscReason) (question : String) :
    EscalateOutput :=
  { workflowRunId := none, suspended := none, suspendPayload := none,
    escalated := true, message := some msg, requiresEmail := true,
    escalationId := none, reason := reason, question := question }

/-- The `execute` function of `escalateTool`
(src/src/mastra/tools/multiple-choice.ts, lines 201-314). External effects
are parameters: `wfFound` is whether `mastra.getWorkflow` finds the email
workflow, `storeRunId` the id of the run returned by `createRun`, `now` and
`rand` the sources of the generated fallback id, and `start` the run store's
`run.start` keyed by the input message and chat id (an `Except.error` is a
thrown exception, caught by the tool's catch block). The second component
of the result records every `run.start` invocation (message, chatId), so
that the emergency path's bypass of the workflow bridge is expressible. -/
def escalateExecute (wfFound : Bool) (storeRunId : Option String) (now : Nat) (rand : String)
    (start : String → Option String → Except String EmailStartResult)
    (reason : EscReason) (question : String) (chatId : Option String)
    (searchResultsCount : Int) : EscalateOutput × List (String × Option String) :=
  if reason = .emergency then
    ({ workflowRunId := none, suspended := none, suspendPayload := none,
       escalated := true, message := some emergencyMessage, requiresEmail := false,
       escalationId := none, reason := reason, question := question }, [])
  else
    let escalationMessage := escalationMessageFor reason searchResultsCount
    if wfFound = false then
      (escalateFallbackOutput escalationMessage reason question, [])
    else
      let generatedRunId := genRunId now rand
      let workflowRunId := resolveRunId storeRunId generatedRunId
      if jsTrim workflowRunId = "" then
        (escalateFallbackOutput escalationMessage reason question, [])
      else
        match start escalationMessage chatId with
        | .error _ => (escalateFallbackOutput escalationMessage reason question,
            [(escalationMessage, chatId)])
        | .ok res =>
          match res.status, res.suspendedSteps with
          | .suspended, stepId :: _ =>
            ({ workflowRunId := some workflowRunId, suspended := some true,
               suspendPayload := stepSuspendPayload res.steps stepId,
               escalated := true, message := none, requiresEmail := true,
               escalationId := none, reason := reason, question := question },
             [(escalationMessage, chatId)])
          | _, _ =>
            ({ workflowRunId := some workflowRunId, suspended := some false,
               suspendPayload := none, escalated := true, message := none,
               requiresEmail := true, escalationId := none, reason := reason,
               question := question }, [(escalationMessage, chatId)])

/-- A `run.start` oracle that always throws, for concrete instantiations. -/
def cFailStart : String → Option String → Except String EmailStartResult :=
  fun _ _ => .error "start failed"

/-- Whether an `Except` value is a success (`isOk`). -/
def exceptIsOk {ε α : Type} : Except ε α → Bool
  | .ok _ => true
  | .error _ => false

/-- Whether `sub` occurs contiguously inside `l`. -/
def listHasInfix (l sub : List Char) : Bool :=
  (List.range (l.length + 1)).any fun i =>
    decide ((l.drop i).take sub.length = sub)

/-- JavaScript `haystack.includes(needle)` on strings. -/
def jsIncludes (s sub : String) : Bool :=
  listHasInfix s.data sub.data

/-- Open bag of the string-valued keys a Pinecone hit's `fields` or
`metadata` container may carry; an absent key is `none`. Non-string values
are out of the model: every claim only concerns string-valued keys. -/
structure FieldBag where
  text : Option String := none
  content : Option String := none
  excerpt : Option String := none
  title : Option String := none
  name : Option String := none
  file_path : Option String := none
  filePath : Option String := none
  url : Option String := none
  description : Option String := none
  summary : Option String := none
deriving DecidableEq, Repr

/-- The bag with every key absent (`{}` in JavaScript). -/
def emptyFieldBag : FieldBag := {}

/-- JavaScript spread merge `{...fields, ...metadata}`: a key present in
`metadata` overrides the one in `fields`. -/
def mergeBag (fields metadata : FieldBag) : FieldBag :=
  { text := metadata.text <|> fields.text,
    content := metadata.content <|> fields.content,
    excerpt := metadata.excerpt <|> fields.excerpt,
    title := metadata.title <|> fields.title,
    name := metadata.name <|> fields.name,
    file_path := metadata.file_path <|> fields.file_path,
    filePath := metadata.filePath <|> fields.filePath,
    url := metadata.url <|> fields.url,
    description := metadata.description <|> fields.description,
    summary := metadata.summary <|> fields.summary }

/-- Content extraction shared by `vectorSearchTool` and
`performAutoVectorSearch`:
`String(fields.text || fields.content || fields.excerpt || metadata.excerpt
|| metadata.content || metadata.text || '')`. -/
def extractContent (fields metadata : FieldBag) : String :=
  jsGetTruthy
    (jsOr fields.text (jsOr fields.content (jsOr fields.excerpt
      (jsOr metadata.excerpt (jsOr metadata.content metadata.text))))) ""

/-- Title extraction shared by the two pipelines:
`String(metadata.title || fields.title || 'Untitled')`. -/
def extractTitle (fields metadata : FieldBag) : String :=
  jsGetTruthy (jsOr metadata.title fields.title) "Untitled"

/-- First truthy value of a precedence list of possibly-absent strings,
else the default: the uniform normalization the amended claim C5 (and the
spec's design note on field-precedence extraction) describes. -/
def firstTruthy : List (Option String) → String → String
  | [], dflt => dflt
  | some s :: rest, dflt => if s = "" then firstTruthy rest dflt else s
  | none :: rest, dflt => firstTruthy rest dflt

/-- A raw hit as returned by the Pinecone backend: `_id`, `_score`, and the
optional `fields` and `metadata` containers. The score is a JavaScript
number that no claim computes with; it is modelled as an integer, for which
`toFixed(3)` appends `.000`. -/
structure RawHit where
  _id : String
  _score : Int
  fields : Option FieldBag := none
  metadata : Option FieldBag := none
deriving DecidableEq, Repr

/-- JavaScript `n.toFixed(3)` for an integral number. -/
def jsToFixed3 (n : Int) : String :=
  toString n ++ ".000"

/-- One normalized search result item: `{id, score, content, metadata}`. -/
structure SearchResultItem where
  id : String
  score : Int
  content : String
  metadata : FieldBag
deriving DecidableEq, Repr

/-- Normalization of one raw hit into a result item, as mapped over
`hits` by both pipelines. -/
def normalizeHit (hit : RawHit) : SearchResultItem :=
  let fields := hit.fields.getD emptyFieldBag
  let metadata := hit.metadata.getD emptyFieldBag
  { id := hit._id, score := hit._score,
    content := extractContent fields metadata,
    metadata := mergeBag fields metadata }

/-- The context block formatted for one hit:
`[Document: <title>, ID: <id>, Score: <score>]\n<content>`. -/
def formatHit (hit : RawHit) : String :=
  let fields := hit.fields.getD emptyFieldBag
  let metadata := hit.metadata.getD emptyFieldBag
  "[Document: " ++ extractTitle fields metadata ++ ", ID: " ++ hit._id ++
    ", Score: " ++ jsToFixed3 hit._score ++ "]\n" ++ extractContent fields metadata

/-- The full context string: the hit blocks joined by the separator. -/
def contextOf (hits : List RawHit) : String :=
  String.intercalate "\n\n---\n\n" (hits.map formatHit)

/-- Output shape of both retrieval pipelines. -/
structure SearchResult where
  context : String
  results : List SearchResultItem
  resultCount : Nat
  hasResults : Bool
  isNoMatch : Bool
deriving DecidableEq, Repr

/-- The short-circuit result for an empty query. -/
def emptySearchResult : SearchResult :=
  { context := "", results := [], resultCount := 0, hasResults := false,
    isNoMatch := true }

/-- The result both pipelines build from the backend's hits: formatted
context, normalized results, `resultCount = hits.length`,
`hasResults = resultCount > 0`, `isNoMatch = !hasResults`. -/
def buildSearchResult (hits : List RawHit) : SearchResult :=
  { context := contextOf hits,
    results := hits.map normalizeHit,
    resultCount := hits.length,
    hasResults := decide (0 < hits.length),
    isNoMatch := !(decide (0 < hits.length)) }

/-- One `searchRecords` request: namespace, `topK` candidate count, rerank
`topN` and the query text. Both pipelines request `topK * 2` candidates
with a rerank down to `topK`. -/
structure SearchRequest where
  nspace : String
  topKRequested : Nat
  rerankTopN : Nat
  queryText : String
deriving DecidableEq, Repr

/-- The config-error message both pipelines throw when the API key is
missing. -/
def apiKeyMissingMessage : String :=
  "PINECONE_API_KEY environment variable is not set. Please configure it in your Mastra Cloud deployment settings."

/-- The `execute` function of `vectorSearchTool`
(src/src/mastra/tools/vector-search.ts). The backend is an oracle from the
recorded request to hits or a thrown error; the second component of the
result records every backend invocation. The inner try/catch around
`searchRecords` turns a backend error into an empty hit list; nothing in
the remaining (total) formatting can throw, so the outer catch is
unreachable in the model. -/
def vectorSearchExecute (apiKeySet : Bool)
    (backend : SearchRequest → Except String (List RawHit))
    (query : String) (nspace : String) (topK : Nat) :
    Except String SearchResult × List SearchRequest :=
  if apiKeySet = false then
    (.error apiKeyMissingMessage, [])
  else if query = "" ∨ jsTrim query = "" then
    (.ok emptySearchResult, [])
  else
    let req : SearchRequest := ⟨nspace, topK * 2, topK, query⟩
    let hits := match backend req with
      | .ok hs => hs
      | .error _ => []
    (.ok (buildSearchResult hits), [req])

/-- The effective index name `process.env.PINECONE_INDEX || 'default-index'`. -/
def pineconeIndexName (indexEnv : Option String) : String :=
  jsGetTruthy indexEnv "default-index"

/-- The diagnostic suffix `performAutoVectorSearch` appends after matching
common error patterns. -/
def searchDiagnosticInfo (errorMessage : String) (indexName : String) : String :=
  if jsIncludes errorMessage "not found" || jsIncludes errorMessage "404" then
    " Index \"" ++ indexName ++
      "\" may not exist. Verify the index name in PINECONE_INDEX environment variable."
  else if jsIncludes errorMessage "401" || jsIncludes errorMessage "403" ||
      jsIncludes errorMessage "unauthorized" then
    " Check that PINECONE_API_KEY is correct and has proper permissions."
  else if jsIncludes errorMessage "network" || jsIncludes errorMessage "ECONNREFUSED" ||
      jsIncludes errorMessage "fetch failed" then
    " Check network connectivity and Pinecone service status."
  else ""

/-- The wrapped error `performAutoVectorSearch` throws when the backend
call fails. -/
def autoSearchErrorMessage (errorMessage : String) (indexEnv : Option String)
    (nspace : String) : String :=
  let indexName := pineconeIndexName indexEnv
  "Auto vector search failed: " ++ errorMessage ++ "." ++
    searchDiagnosticInfo errorMessage indexName ++ " Index: " ++ indexName ++
    ", Namespace: " ++ nspace

/-- The `performAutoVectorSearch` hook
(src/src/mastra/routes/chat-with-auto-search.ts, lines 408-550). Unlike
`vectorSearchExecute` it has no inner catch: a backend failure is wrapped
with diagnostic context and re-thrown to the caller. -/
def performAutoVectorSearch (apiKeySet : Bool) (indexEnv : Option String)
    (backend : SearchRequest → Except String (List RawHit))
    (userMessage : String) (nspace : String) (topK : Nat) :
    Except String SearchResult × List SearchRequest :=
  if apiKeySet = false then
    (.error apiKeyMissingMessage, [])
  else if userMessage = "" ∨ jsTrim userMessage = "" then
    (.ok emptySearchResult, [])
  else
    let req : SearchRequest := ⟨nspace, topK * 2, topK, userMessage⟩
    match backend req with
    | .ok hits => (.ok (buildSearchResult hits), [req])
    | .error msg => (.error (autoSearchErrorMessage msg indexEnv nspace), [req])

/-- The display-oriented shape the chat route maps each result item into
before injecting the `auto-rag-sources` event. -/
structure SourceInfo where
  id : String
  title : String
  score : Int
  content : String
  filePath : Option String
  url : Option String
  description : Option String
  metadata : FieldBag
deriving DecidableEq, Repr

/-- Normalization of one result item to `SourceInfo`
(chat-with-auto-search.ts, lines 152-169): title from
`metadata.title || metadata.name || 'Untitled Document'`, file path from
`metadata.file_path || metadata.filePath || null`, url from
`metadata.url || null`, description from
`metadata.description || metadata.summary || null`. -/
def normalizeSource (result : SearchResultItem) : SourceInfo :=
  let metadata := result.metadata
  { id := result.id,
    title := jsGetTruthy (jsOr metadata.title metadata.name) "Untitled Document",
    score := result.score,
    content := result.content,
    filePath := jsOr metadata.file_path (jsOr metadata.filePath none),
    url := jsOr metadata.url none,
    description := jsOr metadata.description (jsOr metadata.summary none),
    metadata := metadata }

/-- One frame of the emitted chat stream: either the synthetic
`auto-rag-sources` SSE event carrying the normalized sources, or a verbatim
chunk of the underlying agent stream. -/
inductive Frame where
  | autoRagSources (sources : List SourceInfo)
  | chunk (bytes : String)
deriving DecidableEq, Repr

/-- The auto-search state the route holds when the agent stream starts:
`none` when no search ran or the search threw (the catch block leaves
`autoSearchResults` null), else the search's result list. -/
def autoSearchResultsOf : Option (Except String SearchResult) →
    Option (List SearchResultItem)
  | none => none
  | some (.error _) => none
  | some (.ok r) => some r.results

/-- The stream multiplexer of the chat route
(chat-with-auto-search.ts, lines 144-207): when auto-search results exist
and are non-empty, a new stream first enqueues the `auto-rag-sources` event
and then pumps the original stream chunk by chunk; otherwise the response
stream is returned unchanged. -/
def chatStreamFrames (searchOutcome : Option (Except String SearchResult))
    (frames : List String) : List Frame :=
  match autoSearchResultsOf searchOutcome with
  | some results =>
    if 0 < results.length then
      .autoRagSources (results.map normalizeSource) :: frames.map .chunk
    else
      frames.map .chunk
  | none => frames.map .chunk

/-- A backend oracle that always fails, for concrete instantiations. -/
def cFailBackend : SearchRequest → Except String (List RawHit) :=
  fun _ => .error "fail"

/-- Output of `requestEmailTool`: `{workflowRunId, suspended,
suspendPayload?, email?, submitted?}`. -/
structure EmailToolOutput where
  workflowRunId : String
  suspended : Bool
  suspendPayload : Option EmailSuspendPayload := none
  email : Option String := none
  submitted : Option Bool := none
deriving DecidableEq, Repr

/-- The `execute` function of `requestEmailTool`
(src/src/mastra/tools/request-email.ts). `wfFound` is whether
`mastra.getWorkflow` finds the email workflow, `storeRunId` the id reported
by `createRun`, `now`/`rand` the sources of the generated fallback id, and
`start` the outcome of `run.start` (an `Except.error` is a thrown
exception, re-thrown by the tool's catch block). A run that reports
`suspended` with an empty suspended-step list falls through the status
checks to the unexpected-status return. -/
def requestEmailToolExecute (wfFound : Bool) (storeRunId : Option String)
    (now : Nat) (rand : String) (start : Except String EmailStartResult) :
    Except String EmailToolOutput :=
  if wfFound = false then .error "request-email-workflow not found"
  else if jsTrim (resolveRunId storeRunId (genRunId now rand)) = "" then
    .error "Failed to get valid workflow run ID"
  else
    let workflowRunId := resolveRunId storeRunId (genRunId now rand)
    match start with
    | .error e => .error e
    | .ok res =>
      match res.status, res.suspendedSteps, res.result with
      | .suspended, stepId :: _, _ =>
        .ok { workflowRunId := workflowRunId, suspended := true,
              suspendPayload := stepSuspendPayload res.steps stepId }
      | .success, _, some out =>
        .ok { workflowRunId := workflowRunId, suspended := false,
              email := some out.email, submitted := some out.submitted }
      | _, _, _ =>
        .ok { workflowRunId := workflowRunId, suspended := false }

/-- Suspend payload of the multiple-choice step:
`{question, options, reason}`. -/
structure ChoiceSuspendPayload where
  question : String
  options : List ChoiceOption
  reason : String
deriving DecidableEq, Repr

/-- Terminal output of the multiple-choice workflow. -/
structure ChoiceWfOutput where
  selectedOptionId : String
  selectedOptionLabel : String
  submitted : Bool
deriving DecidableEq, Repr

/-- Shape of the run store's answer to `run.start` for the multiple-choice
workflow. -/
structure ChoiceStartResult where
  status : WfRunStatus
  suspendedSteps : List String
  steps : List (String × Option ChoiceSuspendPayload)
  result : Option ChoiceWfOutput
deriving DecidableEq, Repr

/-- Output of `multipleChoiceTool`. -/
structure ChoiceToolOutput where
  workflowRunId : String
  suspended : Bool
  suspendPayload : Option ChoiceSuspendPayload := none
  selectedOptionId : Option String := none
  selectedOptionLabel : Option String := none
  submitted : Option Bool := none
deriving DecidableEq, Repr

/-- The `execute` function of `multipleChoiceTool`
(src/src/mastra/tools/multiple-choice.ts, lines 10-157). Parameters as for
`requestEmailToolExecute` plus the tool's question and options, which feed
the defensive fallbacks applied to the suspend payload (`p.question ||
question`, `p.reason || 'User selection required'`; `p.options || options`
keeps `p.options` because a JavaScript array, even empty, is truthy).
Unlike the email tool, a suspended run with no suspended step is returned
as `{workflowRunId, suspended: true}`. -/
def multipleChoiceToolExecute (wfFound : Bool) (storeRunId : Option String)
    (now : Nat) (rand : String) (question : String) (options : List ChoiceOption)
    (start : Except String ChoiceStartResult) : Except String ChoiceToolOutput :=
  if wfFound = false then .error "multiple-choice-workflow not found"
  else if jsTrim (resolveRunId storeRunId (genRunId now rand)) = "" then
    .error "Failed to get valid workflow run ID"
  else
    let workflowRunId := resolveRunId storeRunId (genRunId now rand)
    match start with
    | .error e => .error e
    | .ok res =>
      match res.status, res.suspendedSteps, res.result with
      | .suspended, stepId :: _, _ =>
        match stepSuspendPayload res.steps stepId with
        | some p =>
          .ok { workflowRunId := workflowRunId, suspended := true,
                suspendPayload := some
                  { question := if p.question = "" then question else p.question,
                    options := p.options,
                    reason := if p.reason = "" then "User selection required"
                      else p.reason } }
        | none =>
          .ok { workflowRunId := workflowRunId, suspended := true }
      | .suspended, [], _ =>
        .ok { workflowRunId := workflowRunId, suspended := true }
      | .success, _, some out =>
        .ok { workflowRunId := workflowRunId, suspended := false,
              selectedOptionId := some out.selectedOptionId,
              selectedOptionLabel := some out.selectedOptionLabel,
              submitted := some out.submitted }
      | _, _, _ =>
        .ok { workflowRunId := workflowRunId, suspended := false }

/-- Resume data of a resume request (`z.record(z.unknown())`), opaque to
the route. -/
abbrev ResumeData := List (String × String)

/-- The optional escalation context of a resume request. -/
structure EscalationContext where
  reason : String
  question : String
  chatId : String
  searchResultsCount : Int
deriving DecidableEq, Repr

/-- A parsed resume request: `{workflowRunId, step, resumeData,
escalationContext?}`. -/
structure ResumeRequest where
  workflowRunId : String
  step : String
  resumeData : ResumeData
  escalationContext : Option EscalationContext
deriving DecidableEq, Repr

/-- The typed output of a resumed run as the route reads it: the optional
`email` field it probes plus the remaining payload. -/
structure ResumeRunOutput where
  email : Option String
  rest : List (String × String)
deriving DecidableEq, Repr

/-- The run store's answer to `run.resume`. -/
structure ResumeRunResult where
  status : WfRunStatus
  suspendedSteps : List String
  result : Option ResumeRunOutput
deriving DecidableEq, Repr

/-- JSON body of the resume route's response. -/
inductive ResumeBody where
  | withEscalation (status : WfRunStatus) (output : Option ResumeRunOutput)
      (context : EscalationContext) (email : String)
  | normal (status : WfRunStatus) (output : Option ResumeRunOutput)
      (suspended : Bool) (suspendedSteps : Option (List String))
      (escalationId : Option String)
  | failure (message : String)
deriving DecidableEq, Repr

/-- An HTTP response of the resume route. -/
structure ResumeHttpResponse where
  httpStatus : Nat
  body : ResumeBody
deriving DecidableEq, Repr

/-- Workflow resolution by step identifier in `handleWorkflowResume`
(chat-with-auto-search.ts, lines 320-331): `request-email-step` and
`multiple-choice-step` map to their workflows, and any other step falls to
the else branch, which tries the email workflow. -/
def resolveWorkflowKey (step : String) : String :=
  if step = "request-email-step" then "requestEmailWorkflow"
  else if step = "multiple-choice-step" then "multipleChoiceWorkflow"
  else "requestEmailWorkflow"

/-- Response construction after a successful `run.resume`
(chat-with-auto-search.ts, lines 345-385): when the run completed, an
escalation context was supplied and the output carries a truthy email, the
context is merged with the email into the response; otherwise the standard
`{status, output?, suspended, suspendedSteps?, escalationId}` body. -/
def finishResume (result : ResumeRunResult)
    (escalationContext : Option EscalationContext) : ResumeHttpResponse :=
  let standard : ResumeHttpResponse :=
    ⟨200, .normal result.status
      (if result.status = .success then result.result else none)
      (decide (result.status = .suspended))
      (if result.status = .suspended then some result.suspendedSteps else none)
      none⟩
  match escalationContext with
  | some ctx =>
    if result.status = .success then
      match result.result with
      | some out =>
        match out.email with
        | some email =>
          if email = "" then standard
          else ⟨200, .withEscalation result.status (some out) ctx email⟩
        | none => standard
      | none => standard
    else standard
  | none => standard

/-- The resume route handler `handleWorkflowResume`
(chat-with-auto-search.ts, lines 292-398), after body parsing: resolve the
workflow key from the step id, look it up in the Mastra registry
(`registry`), run `createRun` + `resume` (the `resumeRun` oracle, an
`Except.error` being a thrown exception caught by the handler's catch
block), and build the response. -/
def handleWorkflowResume (registry : List String)
    (resumeRun : String → String → ResumeData → Except String ResumeRunResult)
    (req : ResumeRequest) : ResumeHttpResponse :=
  let workflowKey := resolveWorkflowKey req.step
  if registry.contains workflowKey = false then
    ⟨500, .failure ("Workflow not found for step: " ++ req.step)⟩
  else
    match resumeRun workflowKey req.workflowRunId req.resumeData with
    | .error e => ⟨500, .failure e⟩
    | .ok result => finishResume result req.escalationContext

end MastraChat

namespace MastraChat

/-- Claim C1: resuming a suspended email-collection run with a string that
does not match the email shape re-suspends the run with a corrective message
(never fails or completes it); resuming with a well-formed email completes
the run with `{email: trimmed input, submitted: true}`. In particular
`"not-an-email"` re-suspends with the corrective message and `"a@b.com"`
completes with `{email: "a@b.com", submitted: true}`. -/
theorem c1_email_resume (message : Option String) (email : String) :
    (emailShapeAccepts email = false →
      (resumeEmailRun message email).isSuspended = true) ∧
    (emailShapeAccepts email = true →
      resumeEmailRun message email = .completed (jsTrim email) true) ∧
    resumeEmailRun message "not-an-email" =
      .suspended "Please enter a valid email address." "Invalid email format" ∧
    resumeEmailRun message "a@b.com" = .completed "a@b.com" true := by
  refine ⟨?_, ?_, ?_, ?_⟩
  · intro h
    unfold resumeEmailRun requestEmailStepExecute
    by_cases he : email = ""
    · simp [he, EmailStepResult.isSuspended]
    · simp [he, h, EmailStepResult.isSuspended]
  · intro h
    have he : email ≠ "" := by
      intro he
      rw [he] at h
      exact absurd h (by decide)
    unfold resumeEmailRun requestEmailStepExecute
    simp [he, h]
  · unfold resumeEmailRun requestEmailStepExecute
    simp [show ("not-an-email" : String) ≠ "" from by decide,
      show emailShapeAccepts "not-an-email" = false from by decide]
  · unfold resumeEmailRun requestEmailStepExecute
    simp [show ("a@b.com" : String) ≠ "" from by decide,
      show emailShapeAccepts "a@b.com" = true from by decide,
      show jsTrim "a@b.com" = "a@b.com" from by decide]

/-- Witness for C1: the theorem applied at a concrete message and the two
concrete emails of the claim. -/
theorem c1_email_resume_witness :
    (resumeEmailRun (some "Hi") "not-an-email").isSuspended = true ∧
    resumeEmailRun (some "Hi") "a@b.com" = .completed "a@b.com" true := by
  refine ⟨?_, ?_⟩
  · exact (c1_email_resume (some "Hi") "not-an-email").1 (by decide)
  · exact (c1_email_resume (some "Hi") "a@b.com").2.1 (by decide)

/-- Counterexample to claim C2 as stated: on the two-entry option list
`[{id:"a",label:"Infant"},{id:"b",label:"Toddler"}]`, resuming with the
(schema-valid) empty string — a selectedOptionId matching no option's id —
re-suspends with reason `User selection required`, not an invalid-option
reason: the step's falsy check routes the empty id to the
selection-required branch before the id is matched against the options. -/
theorem c2_choice_resume_counterexample :
    resumeChoiceRun "How old is your child?" [⟨"a", "Infant"⟩, ⟨"b", "Toddler"⟩] "" =
      .suspended "How old is your child?" [⟨"a", "Infant"⟩, ⟨"b", "Toddler"⟩]
        "User selection required" ∧
    "User selection required" ≠ "Invalid option selected" := by
  exact ⟨rfl, by decide⟩

/-- Claim C2, amended: with at least two options, resuming with a non-empty
selectedOptionId that matches no option's id re-suspends with the
invalid-option reason (never fails the run); resuming with an empty
selectedOptionId re-suspends with the selection-required reason; resuming
with a non-empty id that matches an option completes with the first matching
option's id and label and `submitted: true`. In particular, on
`[{id:"a",label:"Infant"},{id:"b",label:"Toddler"}]`, id `"z"` re-suspends
with the invalid-option reason and `"a"` completes with
`{selectedOptionId:"a", selectedOptionLabel:"Infant", submitted:true}`. -/
theorem c2_choice_resume (question : String) (options : List ChoiceOption) (sel : String)
    (_hmin : 2 ≤ options.length) :
    (sel ≠ "" → options.find? (fun opt => opt.id == sel) = none →
      resumeChoiceRun question options sel =
        .suspended question options "Invalid option selected") ∧
    (sel = "" → resumeChoiceRun question options sel =
        .suspended question options "User selection required") ∧
    (∀ opt, sel ≠ "" → options.find? (fun opt => opt.id == sel) = some opt →
      resumeChoiceRun question options sel = .completed opt.id opt.label true) ∧
    resumeChoiceRun "Q" [⟨"a", "Infant"⟩, ⟨"b", "Toddler"⟩] "z" =
      .suspended "Q" [⟨"a", "Infant"⟩, ⟨"b", "Toddler"⟩] "Invalid option selected" ∧
    resumeChoiceRun "Q" [⟨"a", "Infant"⟩, ⟨"b", "Toddler"⟩] "a" =
      .completed "a" "Infant" true := by
  refine ⟨?_, ?_, ?_, by decide, by decide⟩
  · intro hne hfind
    unfold resumeChoiceRun multipleChoiceStepExecute
    simp [hne, hfind]
  · intro he
    unfold resumeChoiceRun multipleChoiceStepExecute
    simp [he]
  · intro opt hne hfind
    unfold resumeChoiceRun multipleChoiceStepExecute
    simp [hne, hfind]

/-- Witness for C2's amended theorem: applied on the claim's concrete
two-option list with the unmatched id "z" and the matching id "a". -/
theorem c2_choice_resume_witness :
    resumeChoiceRun "Q2" [⟨"a", "Infant"⟩, ⟨"b", "Toddler"⟩] "z" =
      .suspended "Q2" [⟨"a", "Infant"⟩, ⟨"b", "Toddler"⟩] "Invalid option selected" ∧
    resumeChoiceRun "Q2" [⟨"a", "Infant"⟩, ⟨"b", "Toddler"⟩] "a" =
      .completed "a" "Infant" true := by
  constructor
  · exact (c2_choice_resume "Q2" [⟨"a", "Infant"⟩, ⟨"b", "Toddler"⟩] "z"
      (by decide)).1 (by decide) (by decide)
  · exact (c2_choice_resume "Q2" [⟨"a", "Infant"⟩, ⟨"b", "Toddler"⟩] "a"
      (by decide)).2.2.1 ⟨"a", "Infant"⟩ (by decide) (by decide)

/-- Claim C3: an escalation with reason `emergency` bypasses the workflow
bridge entirely — regardless of the run store's behaviour it performs no
`run.start` invocation, the result carries no run handle, the message is the
fixed safety message, and `requiresEmail` is false. -/
theorem c3_escalate_emergency (wfFound : Bool) (storeRunId : Option String)
    (now : Nat) (rand : String)
    (start : String → Option String → Except String EmailStartResult)
    (question : String) (chatId : Option String) (searchResultsCount : Int) :
    escalateExecute wfFound storeRunId now rand start .emergency question chatId
        searchResultsCount =
      ({ workflowRunId := none, suspended := none, suspendPayload := none,
         escalated := true, message := some emergencyMessage, requiresEmail := false,
         escalationId := none, reason := .emergency, question := question }, []) := by
  unfold escalateExecute
  simp

/-- Helper: trimming a list that starts with a non-whitespace character
leaves a non-empty list. -/
theorem jsTrimList_cons_ne (c : Char) (l : List Char) (hc : isJsWhitespace c = false) :
    jsTrimList (c :: l) ≠ [] := by
  intro h
  unfold jsTrimList at h
  rw [List.dropWhile_cons] at h
  simp only [hc, Bool.false_eq_true, if_false] at h
  rw [List.reverse_eq_nil_iff, List.dropWhile_eq_nil_iff] at h
  have := h c (by simp)
  rw [hc] at this
  exact Bool.false_ne_true this

/-- Helper: the generated fallback run ID `run_..._...` is never blank. -/
theorem jsTrim_genRunId_ne (now : Nat) (rand : String) :
    jsTrim (genRunId now rand) ≠ "" := by
  have hd : (genRunId now rand).data =
      'r' :: ("un_" ++ toString now ++ "_" ++ rand).data := by
    unfold genRunId
    simp [String.data_append]
  intro h
  unfold jsTrim at h
  rw [hd] at h
  have := jsTrimList_cons_ne 'r' ("un_" ++ toString now ++ "_" ++ rand).data (by decide)
  exact this (congrArg String.data h)

/-- Helper: whatever ID the run store reports, the resolved run ID of the
tools (store ID when non-blank, else the generated fallback) is never
blank. -/
theorem jsTrim_resolveRunId_genRunId_ne (storeId : Option String) (now : Nat)
    (rand : String) :
    jsTrim (resolveRunId storeId (genRunId now rand)) ≠ "" := by
  unfold resolveRunId
  cases storeId with
  | none => exact jsTrim_genRunId_ne now rand
  | some s =>
    dsimp only
    split
    · next h => exact h
    · exact jsTrim_genRunId_ne now rand

/-- Counterexample to claim C7 as stated: a non-emergency escalation with
reason `user_request` and `searchResultsCount = 0` (the schema's default)
composes the no-match wording, not the user-requested wording, because
`isNoMatch` is true whenever the count is zero regardless of the reason. -/
theorem c7_escalation_message_counterexample :
    (escalateExecute false none 0 "r" cFailStart .user_request "Q" none 0).1.message =
      some noMatchMessage ∧
    noMatchMessage ≠ userRequestMessage := by
  exact ⟨rfl, by decide⟩

/-- Claim C7, amended: the non-emergency user-facing message is determined
by the reason together with `searchResultsCount`: the no-match wording when
the reason is `no_results` or the count is zero, else the user-requested
wording for `user_request`, else the low-confidence wording; the three
wordings are pairwise distinct; the composed message is the one the
orchestrator uses — it is passed as the email workflow's input message when
the workflow is found, and returned directly in the degraded result when it
is not. In particular `user_request` yields the user-requested wording only
when the count is non-zero. -/
theorem c7_escalation_message (wfFound : Bool) (storeRunId : Option String) (now : Nat)
    (rand : String) (start : String → Option String → Except String EmailStartResult)
    (reason : EscReason) (question : String) (chatId : Option String) (src : Int)
    (hne : reason ≠ .emergency) :
    (noMatchMessage ≠ userRequestMessage ∧ noMatchMessage ≠ lowConfidenceMessage ∧
      userRequestMessage ≠ lowConfidenceMessage) ∧
    (reason = .no_results ∨ src = 0 → escalationMessageFor reason src = noMatchMessage) ∧
    (reason = .user_request → src ≠ 0 →
      escalationMessageFor reason src = userRequestMessage) ∧
    (reason ≠ .no_results → reason ≠ .user_request → src ≠ 0 →
      escalationMessageFor reason src = lowConfidenceMessage) ∧
    (wfFound = false →
      (escalateExecute wfFound storeRunId now rand start reason question chatId
          src).1.message = some (escalationMessageFor reason src)) ∧
    (wfFound = true →
      (escalateExecute wfFound storeRunId now rand start reason question chatId
          src).2 = [(escalationMessageFor reason src, chatId)]) := by
  refine ⟨⟨by decide, by decide, by decide⟩, ?_, ?_, ?_, ?_, ?_⟩
  · intro h
    unfold escalationMessageFor
    rw [if_pos h]
  · intro hr hs
    unfold escalationMessageFor
    rw [if_neg ?_, if_pos hr]
    rintro (h | h)
    · rw [hr] at h
      exact absurd h (by decide)
    · exact hs h
  · intro h1 h2 hs
    unfold escalationMessageFor
    rw [if_neg ?_, if_neg h2]
    rintro (h | h)
    · exact h1 h
    · exact hs h
  · intro hw
    subst hw
    unfold escalateExecute
    simp [hne, escalateFallbackOutput]
  · intro hw
    subst hw
    have hres := jsTrim_resolveRunId_genRunId_ne storeRunId now rand
    cases hstart : start (escalationMessageFor reason src) chatId with
    | error e =>
      unfold escalateExecute
      simp [hne, hres, hstart]
    | ok res =>
      unfold escalateExecute
      cases hst : res.status <;> cases hss : res.suspendedSteps <;>
        simp [hne, hres, hstart, hst, hss]

/-- Witness for C7's amended theorem: reason `low_confidence` with a
positive result count on the degraded path yields the low-confidence
wording. -/
theorem c7_escalation_message_witness :
    (escalateExecute false none 0 "r" cFailStart .low_confidence "Q" none 3).1.message =
      some lowConfidenceMessage := by
  have h := c7_escalation_message false none 0 "r" cFailStart .low_confidence "Q" none 3
    (by decide)
  have h4 := h.2.2.2.1 (by decide) (by decide) (by decide)
  have h5 := h.2.2.2.2.1 rfl
  rw [h5, h4]

/-- Claim C4: when the auto search succeeds with at least one result, the
emitted stream's first frame is the single synthetic `auto-rag-sources`
event carrying the normalized results and every subsequent frame is the
underlying stream's chunks in original order; with zero results, a search
failure, or no search at all, the emitted stream is exactly the underlying
stream. The last conjunct ties "results" to "hits": the pipeline produces
one result item per backend hit. -/
theorem c4_stream_multiplexer (r : SearchResult) (frames : List String) (e : String) :
    (r.results ≠ [] →
      chatStreamFrames (some (.ok r)) frames =
        .autoRagSources (r.results.map normalizeSource) :: frames.map .chunk) ∧
    (r.results = [] → chatStreamFrames (some (.ok r)) frames = frames.map .chunk) ∧
    chatStreamFrames (some (.error e)) frames = frames.map .chunk ∧
    chatStreamFrames none frames = frames.map .chunk ∧
    (∀ hits : List RawHit, (buildSearchResult hits).results.length = hits.length) := by
  refine ⟨?_, ?_, rfl, rfl, ?_⟩
  · intro h
    simp only [chatStreamFrames, autoSearchResultsOf]
    rw [if_pos (List.length_pos.mpr h)]
  · intro h
    simp only [chatStreamFrames, autoSearchResultsOf, h]
    simp
  · intro hits
    unfold buildSearchResult
    simp

/-- Witness for C4: a one-result search puts the augmentation event first
and relays the two underlying chunks in order; an empty search leaves the
chunks untouched. -/
theorem c4_stream_multiplexer_witness :
    chatStreamFrames
        (some (.ok ⟨"ctx", [⟨"d1", 2, "X", emptyFieldBag⟩], 1, true, false⟩))
        ["a", "b"] =
      .autoRagSources ([⟨"d1", 2, "X", emptyFieldBag⟩].map normalizeSource) ::
        (["a", "b"] : List String).map Frame.chunk ∧
    chatStreamFrames (some (.ok ⟨"", [], 0, false, true⟩)) ["a", "b"] =
      (["a", "b"] : List String).map Frame.chunk := by
  constructor
  · exact (c4_stream_multiplexer ⟨"ctx", [⟨"d1", 2, "X", emptyFieldBag⟩], 1, true, false⟩
      ["a", "b"] "e").1 (by decide)
  · exact (c4_stream_multiplexer ⟨"", [], 0, false, true⟩ ["a", "b"] "e").2.1 rfl

/-- Helper: evaluating a truthy-or chain against a default proceeds left to
right. -/
theorem jsGetTruthy_jsOr (a b : Option String) (d : String) :
    jsGetTruthy (jsOr a b) d = jsGetTruthy a (jsGetTruthy b d) := by
  cases a with
  | none => rfl
  | some s =>
    unfold jsOr jsGetTruthy
    by_cases hs : s = "" <;> simp [hs]

/-- Helper: unfolding of `firstTruthy` on a cons cell. -/
theorem firstTruthy_cons (o : Option String) (rest : List (Option String)) (d : String) :
    firstTruthy (o :: rest) d = jsGetTruthy o (firstTruthy rest d) := by
  cases o with
  | none => rfl
  | some s => rfl

/-- Helper: unfolding of `firstTruthy` on the empty list. -/
theorem firstTruthy_nil (d : String) : firstTruthy [] d = d := rfl

/-- Counterexample to claim C5 as stated: inside the metadata container the
code tries `excerpt` before `content` before `text` — the reverse of the
claim's "the same three names" order — so a hit with
`metadata.text = "T"` and `metadata.excerpt = "E"` (and empty `fields`)
normalizes to content `"E"`, not `"T"`; and the title takes the secondary
metadata container before the primary fields container, so
`fields.title = "A"` with `metadata.title = "B"` yields `"B"`, not `"A"`. -/
theorem c5_normalization_counterexample :
    extractContent emptyFieldBag { text := some "T", excerpt := some "E" } = "E" ∧
    ("E" : String) ≠ "T" ∧
    extractTitle { title := some "A" } { title := some "B" } = "B" ∧
    ("B" : String) ≠ "A" := by
  exact ⟨rfl, by decide, rfl, by decide⟩

/-- Claim C5, amended: content extraction takes the first non-empty value
under the precedence `fields.text, fields.content, fields.excerpt,
metadata.excerpt, metadata.content, metadata.text` (the metadata container
in reversed name order), falling back to the empty string; the title is the
first non-empty of `metadata.title, fields.title` (secondary container
first), defaulting to "Untitled". In particular a hit with
`fields.text = "X"` and `metadata.content = "Y"` normalizes to content
`"X"`. -/
theorem c5_normalization (fields metadata : FieldBag) :
    extractContent fields metadata =
      firstTruthy [fields.text, fields.content, fields.excerpt,
        metadata.excerpt, metadata.content, metadata.text] "" ∧
    extractTitle fields metadata =
      firstTruthy [metadata.title, fields.title] "Untitled" ∧
    extractContent { text := some "X" } { content := some "Y" } = "X" := by
  refine ⟨?_, ?_, rfl⟩
  · unfold extractContent
    simp only [firstTruthy_cons, jsGetTruthy_jsOr, firstTruthy_nil]
  · unfold extractTitle
    simp only [firstTruthy_cons, jsGetTruthy_jsOr, firstTruthy_nil]

/-- Claim C6: an empty or whitespace-only query makes both retrieval
pipelines return the empty no-match result without any backend
invocation (the recorded request list is empty). -/
theorem c6_empty_query (query nspace : String) (topK : Nat) (indexEnv : Option String)
    (backend : SearchRequest → Except String (List RawHit))
    (hq : jsTrim query = "") :
    vectorSearchExecute true backend query nspace topK = (.ok emptySearchResult, []) ∧
    performAutoVectorSearch true indexEnv backend query nspace topK =
      (.ok emptySearchResult, []) := by
  constructor
  · unfold vectorSearchExecute
    simp [hq]
  · unfold performAutoVectorSearch
    simp [hq]

/-- Witness for C6: the whitespace-only query on a backend that would fail
if consulted. -/
theorem c6_empty_query_witness :
    vectorSearchExecute true cFailBackend "   " "__default__" 5 =
      (.ok emptySearchResult, []) ∧
    performAutoVectorSearch true none cFailBackend "   " "__default__" 5 =
      (.ok emptySearchResult, []) := by
  exact c6_empty_query "   " "__default__" 5 none cFailBackend (by decide)

/-- Counterexample to claim C9 as stated: on a backend failure
`performAutoVectorSearch` does not fall back to an empty result set — it
raises the wrapped error to its caller — while `vectorSearchTool` does fall
back. -/
theorem c9_backend_error_counterexample :
    exceptIsOk (performAutoVectorSearch true none cFailBackend "hello" "__default__" 5).1 =
      false ∧
    (performAutoVectorSearch true none cFailBackend "hello" "__default__" 5).1 =
      .error (autoSearchErrorMessage "fail" none "__default__") ∧
    (vectorSearchExecute true cFailBackend "hello" "__default__" 5).1 =
      .ok (buildSearchResult []) := by
  exact ⟨rfl, rfl, rfl⟩

/-- Claim C9, amended: with a non-empty query both pipelines issue exactly
one backend request for `2k` candidates with a rerank down to `k`; when that
request fails, `vectorSearchTool` falls back to the empty result set, while
`performAutoVectorSearch` raises a wrapped error to its caller — the chat
route — whose catch leaves the auto-search state unset so the emitted
stream degrades to pure pass-through. -/
theorem c9_backend_fallback (query nspace : String) (topK : Nat)
    (indexEnv : Option String)
    (backend : SearchRequest → Except String (List RawHit)) (e : String)
    (hq : jsTrim query ≠ "") :
    (vectorSearchExecute true backend query nspace topK).2 =
      [⟨nspace, topK * 2, topK, query⟩] ∧
    (performAutoVectorSearch true indexEnv backend query nspace topK).2 =
      [⟨nspace, topK * 2, topK, query⟩] ∧
    (backend ⟨nspace, topK * 2, topK, query⟩ = .error e →
      (vectorSearchExecute true backend query nspace topK).1 =
        .ok (buildSearchResult []) ∧
      (performAutoVectorSearch true indexEnv backend query nspace topK).1 =
        .error (autoSearchErrorMessage e indexEnv nspace) ∧
      (∀ frames : List String,
        chatStreamFrames (some (.error (autoSearchErrorMessage e indexEnv nspace)))
          frames = frames.map .chunk)) := by
  have hq0 : query ≠ "" := by
    intro h
    exact hq (by rw [h]; rfl)
  have hcond : ¬ (query = "" ∨ jsTrim query = "") := by
    rintro (h | h)
    · exact hq0 h
    · exact hq h
  refine ⟨?_, ?_, ?_⟩
  · unfold vectorSearchExecute
    simp [hcond]
  · unfold performAutoVectorSearch
    cases hb : backend ⟨nspace, topK * 2, topK, query⟩ <;> simp [hcond, hb]
  · intro hb
    refine ⟨?_, ?_, fun frames => rfl⟩
    · unfold vectorSearchExecute
      simp [hcond, hb]
    · unfold performAutoVectorSearch
      simp [hcond, hb]

/-- Witness for C9's amended theorem: the failing backend on the query
"hello" with `k = 5` — one recorded request for 10 candidates reranked to
5, the tool pipeline returning the empty fallback and the auto-search
pipeline the wrapped error. -/
theorem c9_backend_fallback_witness :
    (vectorSearchExecute true cFailBackend "hello" "__default__" 5).2 =
      [⟨"__default__", 10, 5, "hello"⟩] ∧
    (vectorSearchExecute true cFailBackend "hello" "__default__" 5).1 =
      .ok (buildSearchResult []) ∧
    (performAutoVectorSearch true none cFailBackend "hello" "__default__" 5).1 =
      .error (autoSearchErrorMessage "fail" none "__default__") := by
  have h := c9_backend_fallback "hello" "__default__" 5 none cFailBackend "fail"
    (by decide)
  exact ⟨h.1, (h.2.2 rfl).1, (h.2.2 rfl).2.1⟩

/-- Claim C8: whenever the tool-to-workflow bridge returns a result (rather
than throwing), the returned `workflowRunId` is non-blank — for both the
email tool and the multiple-choice tool. Moreover the resolved id (store id
when non-blank, else the generated fallback) is itself always non-blank,
and the store's id is used exactly when it is non-blank. -/
theorem c8_run_id_nonblank :
    (∀ (wfFound : Bool) (storeRunId : Option String) (now : Nat) (rand : String)
      (start : Except String EmailStartResult) (out : EmailToolOutput),
      requestEmailToolExecute wfFound storeRunId now rand start = .ok out →
      jsTrim out.workflowRunId ≠ "") ∧
    (∀ (wfFound : Bool) (storeRunId : Option String) (now : Nat) (rand : String)
      (question : String) (options : List ChoiceOption)
      (start : Except String ChoiceStartResult) (out : ChoiceToolOutput),
      multipleChoiceToolExecute wfFound storeRunId now rand question options start =
        .ok out →
      jsTrim out.workflowRunId ≠ "") ∧
    (∀ (storeRunId : Option String) (now : Nat) (rand : String),
      jsTrim (resolveRunId storeRunId (genRunId now rand)) ≠ "") ∧
    (∀ s gen, jsTrim s = "" → resolveRunId (some s) gen = gen) ∧
    (∀ s gen, jsTrim s ≠ "" → resolveRunId (some s) gen = s) := by
  refine ⟨?_, ?_, ?_, ?_, ?_⟩
  · intro wfFound storeRunId now rand start out hok
    unfold requestEmailToolExecute at hok
    by_cases hw : wfFound = false
    · rw [if_pos hw] at hok
      exact absurd hok (by simp)
    · rw [if_neg hw] at hok
      by_cases hid : jsTrim (resolveRunId storeRunId (genRunId now rand)) = ""
      · rw [if_pos hid] at hok
        exact absurd hok (by simp)
      · rw [if_neg hid] at hok
        cases start with
        | error e => exact absurd hok (by simp)
        | ok res =>
          rcases res with ⟨st, steps, smap, result⟩
          cases st <;> rcases steps with _ | ⟨s0, srest⟩ <;>
            rcases result with _ | out' <;>
            simp only [Except.ok.injEq] at hok <;> rw [← hok] <;> exact hid
  · intro wfFound storeRunId now rand question options start out hok
    unfold multipleChoiceToolExecute at hok
    by_cases hw : wfFound = false
    · rw [if_pos hw] at hok
      exact absurd hok (by simp)
    · rw [if_neg hw] at hok
      by_cases hid : jsTrim (resolveRunId storeRunId (genRunId now rand)) = ""
      · rw [if_pos hid] at hok
        exact absurd hok (by simp)
      · rw [if_neg hid] at hok
        cases start with
        | error e => exact absurd hok (by simp)
        | ok res =>
          rcases res with ⟨st, steps, smap, result⟩
          cases st <;> rcases steps with _ | ⟨s0, srest⟩ <;>
            rcases result with _ | out' <;>
            first
            | (simp only [Except.ok.injEq] at hok
               rw [← hok]
               exact hid)
            | (rcases hp : stepSuspendPayload smap s0 with _ | p <;>
                simp only [hp, Except.ok.injEq] at hok <;> rw [← hok] <;> exact hid)
  · intro storeRunId now rand
    exact jsTrim_resolveRunId_genRunId_ne storeRunId now rand
  · intro s gen h
    unfold resolveRunId
    simp [h]
  · intro s gen h
    unfold resolveRunId
    simp [h]

/-- Witness for C8: a concrete suspended email-workflow start returns the
generated fallback id `run_1_abc`, which is non-blank. -/
theorem c8_run_id_nonblank_witness :
    requestEmailToolExecute true none 1 "abc"
        (.ok ⟨.suspended, ["request-email-step"],
          [("request-email-step", some ⟨"m", "r"⟩)], none⟩) =
      .ok { workflowRunId := "run_1_abc", suspended := true,
            suspendPayload := some ⟨"m", "r"⟩ } ∧
    jsTrim ("run_1_abc" : String) ≠ "" := by
  constructor
  · rfl
  · exact c8_run_id_nonblank.1 true none 1 "abc"
      (.ok ⟨.suspended, ["request-email-step"],
        [("request-email-step", some ⟨"m", "r"⟩)], none⟩)
      { workflowRunId := "run_1_abc", suspended := true,
        suspendPayload := some ⟨"m", "r"⟩ } (by rfl)

/-- Claim C10: a resume request whose step id is neither
`request-email-step` nor `multiple-choice-step` is not rejected as
unresolvable — the handler silently resolves the email workflow and the
response is exactly the outcome of attempting the resume against it. -/
theorem c10_resume_unknown_step (registry : List String)
    (resumeRun : String → String → ResumeData → Except String ResumeRunResult)
    (req : ResumeRequest)
    (h1 : req.step ≠ "request-email-step") (h2 : req.step ≠ "multiple-choice-step")
    (hreg : registry.contains "requestEmailWorkflow" = true) :
    resolveWorkflowKey req.step = "requestEmailWorkflow" ∧
    handleWorkflowResume registry resumeRun req =
      (match resumeRun "requestEmailWorkflow" req.workflowRunId req.resumeData with
       | .error e => ⟨500, .failure e⟩
       | .ok result => finishResume result req.escalationContext) := by
  have hk : resolveWorkflowKey req.step = "requestEmailWorkflow" := by
    unfold resolveWorkflowKey
    rw [if_neg h1, if_neg h2]
  refine ⟨hk, ?_⟩
  unfold handleWorkflowResume
  rw [hk]
  have hmem : "requestEmailWorkflow" ∈ registry := by
    simpa using hreg
  simp [hmem]

/-- Witness for C10: the unknown step `mystery-step` with a resume oracle
that throws is answered with that oracle's error for the email workflow,
not with a step-unresolvable rejection. -/
theorem c10_resume_unknown_step_witness :
    handleWorkflowResume ["requestEmailWorkflow"]
        (fun _ _ _ => .error "run not found") ⟨"rid", "mystery-step", [], none⟩ =
      ⟨500, .failure "run not found"⟩ := by
  have h := c10_resume_unknown_step ["requestEmailWorkflow"]
    (fun _ _ _ => .error "run not found") ⟨"rid", "mystery-step", [], none⟩
    (by decide) (by decide) (by decide)
  rw [h.2]

end MastraChat
